import Mathlib

/-!
Verification development for the resilient API client of the PackMoveGo
frontend (src/src/services/service.apiSW.ts) and the home-page cache
(HomePageCache).  The TypeScript code is shallowly embedded: the mutable
singleton state of the APIsw class becomes an explicit record that every
operation threads through, timestamps are natural numbers of milliseconds,
and the network transport is an oracle argument.  Log-only fields of the
class (pageApiCalls, errorLog, currentPageName) are omitted: no operation
reads them to make a decision.
-/

/-- JS String.prototype.includes: does hay contain needle as a substring. -/
def strIncludes (hay needle : String) : Bool :=
  hay.data.tails.any (fun t => needle.data.isPrefixOf t)

/-- Error object thrown by the client, with the classification flags the
    source attaches to the Error value.  A plain JS Error has no statusCode
    field, hence the Option. -/
structure ApiError where
  message : String
  statusCode : Option Nat
  is503Error : Bool
  isConsentBlocked : Bool
  isCircuitBreaker : Bool
  isGlobalBlock : Bool
  deriving Repr, DecidableEq

/-- ASCII lowercasing of a JS string (String.prototype.toLowerCase). -/
def strToLower (s : String) : String := ⟨s.data.map Char.toLower⟩

/-- A plain JS Error carrying only a message. -/
def plainError (msg : String) : ApiError :=
  ⟨msg, none, false, false, false, false⟩

-- Cooldown constants from the APIsw class fields.
def endpointCooldown : Nat := 60000
def globalBlockCooldown : Nat := 30000
def healthCheckCooldown : Nat := 30000
def modalCooldown : Nat := 5000
def pendingSafetyTimeout : Nat := 30000

def healthPath : String := "/v0/health"

/-- State of the API failure modal (the Failure Notifier). -/
structure ModalState where
  isVisible : Bool
  failedEndpoints : List String
  is503Error : Bool
  deriving Repr, DecidableEq

/-- Mutable state of the APIsw singleton (decision-relevant fields). -/
structure SWState where
  global503 : Bool
  pendingReqs : List (String × Nat)
  requestTimeouts : List (String × Nat)
  nextPromiseId : Nat
  globalRequestBlocked : Bool
  globalBlockTime : Nat
  failedEndpoints : List String
  endpointFailureTimes : List (String × Nat)
  isApiBlocked : Bool
  apiIsDown : Bool
  lastHealthCheckTime : Nat
  modal : ModalState
  lastModalShowTime : Nat
  deriving Repr, DecidableEq

/-- The freshly constructed client state. -/
def cleanState : SWState :=
  ⟨false, [], [], 0, false, 0, [], [], false, false, 0, ⟨false, [], false⟩, 0⟩

-- Association-list embedding of JS Map operations.

/-- JS Map.set: replaces any previous binding of the key. -/
def mapSet (l : List (String × Nat)) (k : String) (v : Nat) : List (String × Nat) :=
  (k, v) :: l.filter (fun p => p.1 != k)

/-- JS Map.delete. -/
def mapDelete (l : List (String × Nat)) (k : String) : List (String × Nat) :=
  l.filter (fun p => p.1 != k)

/-- JS map.get(k) with a default (the source writes get(k) or 0). -/
def mapGetD (l : List (String × Nat)) (k : String) (d : Nat) : Nat :=
  (l.lookup k).getD d

/-- JS Set.add: appends when absent, keeps insertion order. -/
def setAdd (l : List String) (x : String) : List String :=
  if x ∈ l then l else l ++ [x]

/-- JS Set.delete. -/
def setDelete (l : List String) (x : String) : List String :=
  l.filter (fun y => y != x)

/-- Array.from(new Set(xs)): deduplicate keeping first occurrences. -/
def jsSetDedup (xs : List String) : List String :=
  xs.foldl setAdd []

-- ---------------------------------------------------------------------------
-- Gate functions of the APIsw class
-- ---------------------------------------------------------------------------

/-- APIsw.getRequestKey: method, endpoint and serialized body. -/
def getRequestKey (method endpoint body : String) : String :=
  method ++ ":" ++ endpoint ++ ":" ++ body

/-- APIsw.isEndpointInCircuitBreaker: returns the check result and the state
    after the lazy cooldown eviction it performs. -/
def isEndpointInCircuitBreakerFn (s : SWState) (endpoint : String) (now : Nat) :
    Bool × SWState :=
  if endpoint ∉ s.failedEndpoints then (false, s)
  else if now - mapGetD s.endpointFailureTimes endpoint 0 > endpointCooldown then
    (false, { s with failedEndpoints := setDelete s.failedEndpoints endpoint,
                     endpointFailureTimes := mapDelete s.endpointFailureTimes endpoint })
  else (true, s)

/-- APIsw.addEndpointToCircuitBreaker. -/
def addEndpointToCircuitBreakerFn (s : SWState) (endpoint : String) (now : Nat) : SWState :=
  { s with failedEndpoints := setAdd s.failedEndpoints endpoint,
           endpointFailureTimes := mapSet s.endpointFailureTimes endpoint now }

/-- APIsw.isGlobalRequestBlocked, with its cooldown self-reset. -/
def isGlobalRequestBlockedFn (s : SWState) (now : Nat) : Bool × SWState :=
  if s.globalRequestBlocked = false then (false, s)
  else if now - s.globalBlockTime > globalBlockCooldown then
    (false, { s with globalRequestBlocked := false, globalBlockTime := 0 })
  else (true, s)

/-- APIsw.activateGlobalRequestBlock. -/
def activateGlobalRequestBlockFn (s : SWState) (now : Nat) : SWState :=
  { s with globalRequestBlocked := true, globalBlockTime := now }

/-- APIsw.checkApiHealth.  The network health probe outcome is the oracle
    argument healthy; healthCheckInProgress is always false in this
    sequential (single logical thread, no interleaving) model. -/
def checkApiHealthFn (s : SWState) (now : Nat) (healthy : Bool) : Bool × SWState :=
  if s.apiIsDown && decide (now - s.lastHealthCheckTime < healthCheckCooldown) then
    (false, s)
  else if healthy then
    (true, { s with apiIsDown := false, lastHealthCheckTime := now })
  else
    (false, { s with apiIsDown := true, lastHealthCheckTime := now, global503 := true })

/-- The consent-blocked error built by APIsw.checkConsentMiddleware. -/
def consentBlockedError : ApiError :=
  { message := "503 Service Unavailable: API calls blocked due to cookie consent - user must opt in first",
    statusCode := some 503, is503Error := true, isConsentBlocked := true,
    isCircuitBreaker := false, isGlobalBlock := false }

/-- APIsw.checkConsentMiddleware: throws when consent is missing. -/
def checkConsentMiddlewareFn (s : SWState) : Option ApiError :=
  if s.isApiBlocked then some consentBlockedError else none

/-- APIsw.showApiFailureModal. -/
def showApiFailureModalFn (s : SWState) (eps : List String) (is503 : Bool) (now : Nat) :
    SWState :=
  if s.modal.isVisible then s
  else if now - s.lastModalShowTime < modalCooldown then s
  else { s with modal := ⟨true, jsSetDedup eps, is503⟩, lastModalShowTime := now }

/-- APIsw.hideApiFailureModal. -/
def hideApiFailureModalFn (s : SWState) : SWState :=
  { s with modal := ⟨false, [], false⟩ }

/-- APIsw.addPendingRequest: registers the promise and schedules the 30s
    safety cleanup (we record the scheduled firing time). -/
def addPendingRequestFn (s : SWState) (key : String) (pid : Nat) (now : Nat) : SWState :=
  { s with pendingReqs := mapSet s.pendingReqs key pid,
           requestTimeouts := mapSet s.requestTimeouts key (now + pendingSafetyTimeout) }

/-- APIsw.removePendingRequest (also run by the finally handler on settle). -/
def removePendingRequestFn (s : SWState) (key : String) : SWState :=
  { s with pendingReqs := mapDelete s.pendingReqs key,
           requestTimeouts := mapDelete s.requestTimeouts key }

/-- The 30s safety setTimeout callback inside addPendingRequest. -/
def pendingTimeoutFire (s : SWState) (key : String) : SWState :=
  { s with pendingReqs := mapDelete s.pendingReqs key,
           requestTimeouts := mapDelete s.requestTimeouts key }

-- Gate rejection errors built by makeRequestInternal.

def global503Error : ApiError :=
  { message := "503 Service Unavailable: API is globally unavailable",
    statusCode := some 503, is503Error := true, isConsentBlocked := false,
    isCircuitBreaker := false, isGlobalBlock := false }

def globalBlockError : ApiError :=
  { message := "503 Service Unavailable: API is temporarily unavailable (global block)",
    statusCode := some 503, is503Error := true, isConsentBlocked := false,
    isCircuitBreaker := false, isGlobalBlock := true }

def circuitBreakerError (endpoint : String) : ApiError :=
  { message := "503 Service Unavailable: " ++ endpoint ++ " is temporarily unavailable (circuit breaker)",
    statusCode := some 503, is503Error := true, isConsentBlocked := false,
    isCircuitBreaker := true, isGlobalBlock := false }

def healthCheckFailedError : ApiError :=
  { message := "503 Service Unavailable: API health check failed",
    statusCode := some 503, is503Error := true, isConsentBlocked := false,
    isCircuitBreaker := false, isGlobalBlock := false }

/-- Outcome of the synchronous prologue of makeRequestInternal, up to and
    including registration of the network promise. -/
inductive StartResult where
  | rejected (e : ApiError)
  | joined (pid : Nat)
  | started (pid : Nat)
  deriving Repr, DecidableEq

/-- APIsw.makeRequestInternal, gates phase: every check in source order
    (global 503, pending-request dedup, global block, circuit breaker,
    consent, health), stopping where the network promise is created and
    registered.  The checks guarded by endpoint !== the health path are
    skipped for the health endpoint exactly as in the source. -/
def startRequest (s : SWState) (endpoint method body : String) (now : Nat)
    (healthy : Bool) : StartResult × SWState :=
  if s.global503 then
    (.rejected global503Error, showApiFailureModalFn s [endpoint] true now)
  else
    let requestKey := getRequestKey method endpoint body
    match s.pendingReqs.lookup requestKey with
    | some pid => (.joined pid, s)
    | none =>
      let gb := if endpoint != healthPath then isGlobalRequestBlockedFn s now else (false, s)
      if gb.1 then
        (.rejected globalBlockError, showApiFailureModalFn gb.2 [endpoint] true now)
      else
        let cb := if endpoint != healthPath then isEndpointInCircuitBreakerFn gb.2 endpoint now
                  else (false, gb.2)
        if cb.1 then
          (.rejected (circuitBreakerError endpoint), showApiFailureModalFn cb.2 [endpoint] true now)
        else
          match (if endpoint != healthPath then checkConsentMiddlewareFn cb.2 else none) with
          | some e => (.rejected e, cb.2)
          | none =>
            let hc := if endpoint != healthPath then checkApiHealthFn cb.2 now healthy
                      else (true, cb.2)
            if hc.1 then
              let pid := hc.2.nextPromiseId
              let s4 := { hc.2 with nextPromiseId := pid + 1 }
              (.started pid, addPendingRequestFn s4 requestKey pid now)
            else
              let s4 := addEndpointToCircuitBreakerFn
                          (activateGlobalRequestBlockFn hc.2 now) endpoint now
              (.rejected healthCheckFailedError, showApiFailureModalFn s4 [endpoint] true now)

/-- APIsw.makePublicRequestInternal, gates phase: identical checks except
    that the global-block and circuit-breaker rejections do not show the
    failure modal. -/
def startPublicRequest (s : SWState) (endpoint method body : String) (now : Nat)
    (healthy : Bool) : StartResult × SWState :=
  if s.global503 then
    (.rejected global503Error, showApiFailureModalFn s [endpoint] true now)
  else
    let requestKey := getRequestKey method endpoint body
    match s.pendingReqs.lookup requestKey with
    | some pid => (.joined pid, s)
    | none =>
      let gb := if endpoint != healthPath then isGlobalRequestBlockedFn s now else (false, s)
      if gb.1 then
        (.rejected globalBlockError, gb.2)
      else
        let cb := if endpoint != healthPath then isEndpointInCircuitBreakerFn gb.2 endpoint now
                  else (false, gb.2)
        if cb.1 then
          (.rejected (circuitBreakerError endpoint), cb.2)
        else
          match (if endpoint != healthPath then checkConsentMiddlewareFn cb.2 else none) with
          | some e => (.rejected e, cb.2)
          | none =>
            let hc := if endpoint != healthPath then checkApiHealthFn cb.2 now healthy
                      else (true, cb.2)
            if hc.1 then
              let pid := hc.2.nextPromiseId
              let s4 := { hc.2 with nextPromiseId := pid + 1 }
              (.started pid, addPendingRequestFn s4 requestKey pid now)
            else
              let s4 := addEndpointToCircuitBreakerFn
                          (activateGlobalRequestBlockFn hc.2 now) endpoint now
              (.rejected healthCheckFailedError, showApiFailureModalFn s4 [endpoint] true now)

-- Pure descriptions of the check results (proved to agree with the checks).

def globalBlockActive (s : SWState) (now : Nat) : Bool :=
  s.globalRequestBlocked && decide (now - s.globalBlockTime ≤ globalBlockCooldown)

def breakerActive (s : SWState) (endpoint : String) (now : Nat) : Bool :=
  decide (endpoint ∈ s.failedEndpoints) &&
    decide (now - mapGetD s.endpointFailureTimes endpoint 0 ≤ endpointCooldown)

def healthCheckPasses (s : SWState) (now : Nat) (healthy : Bool) : Bool :=
  healthy && !(s.apiIsDown && decide (now - s.lastHealthCheckTime < healthCheckCooldown))

-- ---------------------------------------------------------------------------
-- Network transport model (tryFetch / executeRequest)
-- ---------------------------------------------------------------------------

/-- The JSON payload shape the client builds or parses for failures. -/
structure Payload where
  error : Bool
  statusCode : Nat
  message : String
  is503Error : Bool
  isConnectionError : Bool
  isRedirectError : Bool
  isCorsError : Bool
  deriving Repr, DecidableEq

/-- A parsed response body: either a structured payload or other JSON data. -/
inductive DataVal where
  | obj (p : Payload)
  | other (s : String)
  deriving Repr, DecidableEq

/-- A fetch Response, as far as the client inspects it. -/
structure HttpResponse where
  status : Nat
  redirected : Bool
  statusText : String
  body : DataVal
  deriving Repr, DecidableEq

/-- Outcome of the underlying fetch call: a response, or a thrown error
    (isTypeError records whether the thrown value was a TypeError). -/
inductive FetchOutcome where
  | resp (r : HttpResponse)
  | fetchError (message : String) (isTypeError : Bool)
  deriving Repr, DecidableEq

/-- Mock 503 payload for redirect responses (built in tryFetch). -/
def redirectMock503 : Payload :=
  ⟨true, 503, "Service Unavailable: API endpoint redirected (backend misconfiguration)",
   true, false, true, false⟩

/-- Mock 503 payload for CORS redirect errors (built in tryFetch). -/
def corsMock503 : Payload :=
  ⟨true, 503, "Service Unavailable: CORS redirect error (backend misconfiguration)",
   true, false, true, true⟩

/-- Mock 503 payload for connection failures (built in tryFetch). -/
def connMock503 : Payload :=
  ⟨true, 503, "Service Unavailable: Connection failed", true, true, false, false⟩

/-- The tryFetch helper inside executeRequest: redirect responses, CORS
    redirect errors and failed-to-fetch errors are synthesized into
    503-status responses; other thrown errors propagate. -/
def tryFetchModel (f : FetchOutcome) : Except String HttpResponse :=
  match f with
  | .resp r =>
    if r.redirected || r.status == 301 || r.status == 302 || r.status == 307
        || r.status == 308 then
      .ok ⟨503, false, "Service Unavailable", .obj redirectMock503⟩
    else .ok r
  | .fetchError msg isTypeError =>
    if isTypeError && (strIncludes msg "Redirect is not allowed"
        || strIncludes msg "CORS policy") then
      .ok ⟨503, false, "Service Unavailable", .obj corsMock503⟩
    else if isTypeError && strIncludes msg "Failed to fetch" then
      .ok ⟨503, false, "Service Unavailable", .obj connMock503⟩
    else .error msg

/-- Modelled from the spec: util/errorUtils is imported by service.apiSW.ts
    but its source is not in the provided tree.  Per spec sections 4.6 and 7,
    a connection error is a transport-level failure recognized by known
    transient-failure message substrings (failed-to-fetch, connection
    refused, network unreachable). -/
def isConnectionErrorModel (e : ApiError) : Bool :=
  let m := strToLower e.message
  strIncludes m "failed to fetch" || strIncludes m "err_connection_refused"
    || strIncludes m "err_network" || strIncludes m "network error"
    || strIncludes m "econnrefused"

/-- Modelled from the spec: util/errorUtils is503Error.  Per spec section 7,
    service-unavailable means HTTP 503 or a synthesized equivalent, so an
    error is 503-classified when it carries status 503, the is503Error flag,
    or a 503 marker in its message. -/
def is503ErrorModel (e : ApiError) : Bool :=
  e.is503Error || e.statusCode == some 503 || strIncludes e.message "503"

/-- Modelled from the spec: util/errorUtils createConnectionError, used only
    for the message text of the 503-shaped connection-failure payload. -/
def createConnectionErrorMessage (original : String) : String :=
  "503 Service Unavailable: Connection failed - " ++ original

/-- errorData.message with the statusText fallback used by the error
    handlers (errorData.message or response.statusText). -/
def dataMessage (d : DataVal) (statusText : String) : String :=
  match d with
  | .obj p => if p.message = "" then statusText else p.message
  | .other _ => statusText

/-- APIsw.handleErrorResponse: the message of the Error thrown for a non-ok,
    non-503-returned response (the signin redirect side effect of the 403
    branch is browser navigation and is not modeled). -/
def handleErrorResponseModel (r : HttpResponse) : String :=
  let msg := dataMessage r.body r.statusText
  if r.status == 503 then "Service temporarily unavailable (503): " ++ msg
  else if r.status == 403 then "Authentication required: " ++ msg
  else if r.status == 429 || strIncludes msg "Too many requests" then
    "Rate limited: " ++ msg
  else "HTTP " ++ toString r.status ++ ": " ++ msg

/-- APIsw.executeRequest from the point the fetch settles: 2xx returns the
    body, 503 returns the body as data and sets the global 503 flag, other
    statuses throw; the catch block converts connection errors and
    503-classified errors into 503-shaped data.  (The source references the
    free variable endpoint when building the connection-error message; only
    the message text depends on it, so it is not a parameter here.)
    Returns the settled result and the new global-503 flag. -/
def executeRequestModel (f : FetchOutcome) (g503 : Bool) :
    Except ApiError DataVal × Bool :=
  match tryFetchModel f with
  | .ok r =>
    if 200 ≤ r.status && r.status < 300 then (.ok r.body, g503)
    else if r.status == 503 then (.ok r.body, true)
    else
      let thrown := plainError (handleErrorResponseModel r)
      if isConnectionErrorModel thrown then
        (.ok (.obj ⟨true, 503, createConnectionErrorMessage thrown.message,
                    true, true, false, false⟩), true)
      else if is503ErrorModel thrown then
        (.ok (.obj ⟨true, 503, thrown.message, true, false, false, false⟩), true)
      else (.error thrown, g503)
  | .error msg =>
    let thrown := plainError msg
    if isConnectionErrorModel thrown then
      (.ok (.obj ⟨true, 503, createConnectionErrorMessage msg,
                  true, true, false, false⟩), true)
    else if is503ErrorModel thrown then
      (.ok (.obj ⟨true, 503, msg, true, false, false, false⟩), true)
    else (.error thrown, g503)

-- ---------------------------------------------------------------------------
-- Retry engine (retryWithBackoff / isRetryableError)
-- ---------------------------------------------------------------------------

def RETRY_maxRetries : Nat := 3
def RETRY_baseDelay : ℚ := 1000
def RETRY_maxDelay : ℚ := 10000
def RETRY_retryableStatusCodes : List Nat := [503, 502, 504, 0]
def RETRY_retryableErrors : List String :=
  ["Failed to fetch", "ERR_CONNECTION_REFUSED", "ERR_NETWORK", "timeout"]

/-- isRetryableError.  Note the JS truthiness guard statusCode && ... in the
    source: a statusCode of 0 is falsy, so the status-code test never fires
    for 0 even though 0 is listed. -/
def isRetryableErrorFn (e : ApiError) : Bool :=
  let m := strToLower e.message
  let hasRetryableMessage := RETRY_retryableErrors.any (fun s => strIncludes m (strToLower s))
  let hasRetryableStatus :=
    match e.statusCode with
    | some c => c != 0 && RETRY_retryableStatusCodes.contains c
    | none => false
  hasRetryableMessage || hasRetryableStatus || isConnectionErrorModel e

/-- delay = min(baseDelay * 2 ^ attempt + jitter, maxDelay); the jitter is
    Math.random() * 1000, passed in as an oracle rational. -/
def backoffDelay (attempt : Nat) (jitter : ℚ) : ℚ :=
  min (RETRY_baseDelay * 2 ^ attempt + jitter) RETRY_maxDelay

/-- Loop body of retryWithBackoff: remaining counts the retries still
    allowed (maxRetries - attempt); the result carries the settled value or
    last error, the number of attempts made, and the sleep delays taken
    between attempts. -/
def retryRun (oracle : Nat → Except ApiError α) (jits : Nat → ℚ) :
    Nat → Nat → Except ApiError α × Nat × List ℚ
  | remaining, attempt =>
    match oracle attempt with
    | .ok v => (.ok v, 1, [])
    | .error e =>
      if isRetryableErrorFn e then
        match remaining with
        | 0 => (.error e, 1, [])
        | r + 1 =>
          let d := backoffDelay attempt (jits attempt)
          let rest := retryRun oracle jits r (attempt + 1)
          (rest.1, rest.2.1 + 1, d :: rest.2.2)
      else (.error e, 1, [])

/-- retryWithBackoff with the default maxRetries. -/
def retryWithBackoffModel (oracle : Nat → Except ApiError α) (jits : Nat → ℚ)
    (maxRetries : Nat) : Except ApiError α × Nat × List ℚ :=
  retryRun oracle jits maxRetries 0

/-- APIsw.shouldRetryEndpoint: allow-list matched with String.includes. -/
def shouldRetryEndpointFn (endpoint : String) : Bool :=
  ["/v0/health", "/v0/locations", "/v0/service-areas", "/v0/services", "/v0/supplies"].any
    (fun c => strIncludes endpoint c)

/-- Retry loop specialized to executeRequest, threading the global-503 flag
    through the attempts (delays are covered by retryRun). -/
def execRetryLoop (fetches : Nat → FetchOutcome) (g503 : Bool) :
    Nat → Nat → Except ApiError DataVal × Bool
  | remaining, attempt =>
    let r := executeRequestModel (fetches attempt) g503
    match r.1 with
    | .ok v => (.ok v, r.2)
    | .error e =>
      if isRetryableErrorFn e then
        match remaining with
        | 0 => (.error e, r.2)
        | rem + 1 => execRetryLoop fetches g503 rem (attempt + 1)
      else (.error e, r.2)

/-- Result of a whole makeRequestInternal call, once its promise settles. -/
inductive CallResult where
  | rejected (e : ApiError)
  | joined (pid : Nat)
  | resolvedData (pid : Nat) (d : DataVal)
  | rejectedNetwork (pid : Nat) (e : ApiError)
  deriving Repr, DecidableEq

/-- makeRequestInternal end to end: the gates phase, then (when a network
    promise was started) executeRequestWithRetry with the transport oracle,
    then the finally cleanup of the pending-request entry. -/
def makeRequestInternalModel (s : SWState) (endpoint method body : String)
    (now : Nat) (healthy : Bool) (fetches : Nat → FetchOutcome) :
    CallResult × SWState :=
  match startRequest s endpoint method body now healthy with
  | (.rejected e, s1) => (.rejected e, s1)
  | (.joined pid, s1) => (.joined pid, s1)
  | (.started pid, s1) =>
    let net :=
      if shouldRetryEndpointFn endpoint then
        execRetryLoop fetches s1.global503 RETRY_maxRetries 0
      else
        executeRequestModel (fetches 0) s1.global503
    let s2 := removePendingRequestFn { s1 with global503 := net.2 }
                (getRequestKey method endpoint body)
    match net.1 with
    | .ok d => (.resolvedData pid d, s2)
    | .error e => (.rejectedNetwork pid e, s2)

-- ---------------------------------------------------------------------------
-- JWT authentication manager
-- ---------------------------------------------------------------------------

/-- Stored JWT token (user payload omitted: not consulted by any check). -/
structure JWTTokenData where
  token : String
  expiresAt : Nat
  deriving Repr, DecidableEq

/-- JWTAuthManager state: in-memory token and browser localStorage slot. -/
structure AuthState where
  mem : Option JWTTokenData
  storage : Option JWTTokenData
  deriving Repr, DecidableEq

/-- JWTAuthManager.clearToken: clears memory and localStorage. -/
def clearTokenFn (_ : AuthState) : AuthState := ⟨none, none⟩

/-- JWTAuthManager.loadStoredToken (constructor): loads from storage, then
    self-invalidates when already expired. -/
def loadStoredTokenFn (s : AuthState) (now : Nat) : AuthState :=
  match s.storage with
  | none => s
  | some t => if t.expiresAt < now then clearTokenFn s else ⟨some t, s.storage⟩

/-- JWTAuthManager.getToken: returns the token string and the state after
    the expiry check it performs on every access. -/
def getTokenFn (s : AuthState) (now : Nat) : Option String × AuthState :=
  match s.mem with
  | none => (none, clearTokenFn s)
  | some t => if t.expiresAt < now then (none, clearTokenFn s) else (some t.token, s)

/-- JWTAuthManager.getAuthHeaders. -/
def getAuthHeadersFn (s : AuthState) (now : Nat) : List (String × String) × AuthState :=
  let r := getTokenFn s now
  match r.1 with
  | some tok => ([("Authorization", "Bearer " ++ tok)], r.2)
  | none => ([], r.2)

/-- JWTAuthManager.isAuthenticated. -/
def isAuthenticatedFn (s : AuthState) (now : Nat) : Bool × AuthState :=
  let r := getTokenFn s now
  (r.1.isSome, r.2)

-- ---------------------------------------------------------------------------
-- Caches: HomePageCache (source) and apiCache (modelled from the spec)
-- ---------------------------------------------------------------------------

def HOME_CACHE_DURATION : Nat := 5 * 60 * 1000

/-- HomePageCache state: key to data plus insertion timestamp. -/
def HPCache (α : Type) : Type := List (String × α × Nat)

/-- HomePageCache.set. -/
def hpSet (c : HPCache α) (key : String) (v : α) (now : Nat) : HPCache α :=
  (key, v, now) :: c.filter (fun p => p.1 != key)

/-- HomePageCache.get: expired entries (now - timestamp > duration) are
    deleted lazily on read and report a miss; fresh entries are returned. -/
def hpGet (c : HPCache α) (key : String) (now : Nat) : Option α × HPCache α :=
  match c.lookup key with
  | none => (none, c)
  | some (v, ts) =>
    if now - ts > HOME_CACHE_DURATION then (none, c.filter (fun p => p.1 != key))
    else (some v, c)

/-- HomePageCache.clear. -/
def hpClear (_ : HPCache α) : HPCache α := []

/-- HomePageCache.clearExpired. -/
def hpClearExpired (c : HPCache α) (now : Nat) : HPCache α :=
  c.filter (fun p => decide (now - p.2.2 ≤ HOME_CACHE_DURATION))

/-- Modelled from the spec: util/apiCache (getCachedApiResponse and
    cacheApiResponse) is imported by service.apiSW.ts but its source is not
    in the provided tree.  Per spec section 4.7 each entry carries its own
    TTL set at insertion; the read path returns the value when
    now - insertedAt is at most the TTL and otherwise evicts and misses. -/
def ApiCache (α : Type) : Type := List (String × α × Nat × Nat)

/-- Modelled from the spec: apiCache.cacheApiResponse key value ttl. -/
def cacheApiResponseFn (c : ApiCache α) (key : String) (v : α) (ttl now : Nat) :
    ApiCache α :=
  (key, v, now, ttl) :: c.filter (fun p => p.1 != key)

/-- Modelled from the spec: apiCache.getCachedApiResponse. -/
def getCachedApiResponseFn (c : ApiCache α) (key : String) (now : Nat) :
    Option α × ApiCache α :=
  match c.lookup key with
  | none => (none, c)
  | some (v, ins, ttl) =>
    if now - ins ≤ ttl then (some v, c)
    else (none, c.filter (fun p => p.1 != key))

def locationsPath : String := "/v0/locations"
def LOCATIONS_TTL : Nat := 15 * 60 * 1000

/-- APIsw.getLocations: cache read, then network on a miss, then cache fill
    with a 15 minute TTL when the result is truthy.  netResult abstracts the
    makeRequest result (none for a falsy result, which is not cached); the
    returned Bool records whether the network path was taken. -/
def getLocationsModel (c : ApiCache α) (now : Nat) (netResult : Option α) :
    Option α × ApiCache α × Bool :=
  match getCachedApiResponseFn c locationsPath now with
  | (some v, c1) => (some v, c1, false)
  | (none, c1) =>
    match netResult with
    | some r => (some r, cacheApiResponseFn c1 locationsPath r LOCATIONS_TTL now, true)
    | none => (none, c1, true)

-- ---------------------------------------------------------------------------
-- Concrete inputs used by witnesses and counterexamples
-- ---------------------------------------------------------------------------

/-- Transport oracle that always answers HTTP 404. -/
def fetch404 : Nat → FetchOutcome :=
  fun _ => .resp ⟨404, false, "Not Found", .other "nf"⟩

/-- At most one pending-registry entry per request identity. -/
def pendingKeysNodup (s : SWState) : Prop :=
  (s.pendingReqs.map Prod.fst).Nodup

/-- Client state reached after a health-check failure at time 0 tripped the
    breaker for the services endpoint, the UI then called
    resetGlobal503Status, and the user revoked cookie consent. -/
def sTripConsent : SWState :=
  ⟨false, [], [], 0, true, 0, ["/v0/services"], [("/v0/services", 0)],
   true, true, 0, ⟨true, ["/v0/services"], true⟩, 0⟩

/-- Client state with a pending request for the nav endpoint (promise 7)
    and consent revoked while it is in flight. -/
def sPendingConsent : SWState :=
  ⟨false, [("GET:/v0/nav:", 7)], [("GET:/v0/nav:", 30000)], 8, false, 0,
   [], [], true, false, 0, ⟨false, [], false⟩, 0⟩

/-- Client state with a pending services request and every gate adverse:
    consent revoked, breaker tripped, global block active. -/
def sPendingAllGates : SWState :=
  ⟨false, [("GET:/v0/services:", 3)], [("GET:/v0/services:", 30000)], 4, true, 0,
   ["/v0/services"], [("/v0/services", 0)], true, true, 0, ⟨false, [], false⟩, 0⟩

/-- Client state after a health failure at time 0 tripped the supplies
    endpoint (global 503 later reset, consent granted). -/
def sTripSupplies : SWState :=
  ⟨false, [], [], 0, true, 0, ["/v0/supplies"], [("/v0/supplies", 0)],
   false, true, 0, ⟨true, ["/v0/supplies"], true⟩, 0⟩

/-- State after startRequest cleanState for the nav endpoint at time 1000. -/
def c4WitnessState : SWState :=
  ⟨false, [("GET:/v0/nav:", 0)], [("GET:/v0/nav:", 31000)], 1, false, 0,
   [], [], false, false, 1000, ⟨false, [], false⟩, 0⟩

/-- A retryable error: its message contains the timeout marker. -/
def timeoutError : ApiError := plainError "Request timeout"

/-- A non-retryable error: a plain 404 failure. -/
def notFoundError : ApiError := plainError "HTTP 404: Not Found"


-- ---------------------------------------------------------------------------
-- Helper lemmas: association lists and JS set operations
-- ---------------------------------------------------------------------------

lemma lookup_filter_ne {β : Type} (l : List (String × β)) (k : String) :
    (l.filter (fun p => p.1 != k)).lookup k = none := by
  induction l with
  | nil => rfl
  | cons p t ih =>
    obtain ⟨pk, pv⟩ := p
    by_cases h : pk = k
    · rw [List.filter_cons, if_neg (by simp [h])]
      exact ih
    · rw [List.filter_cons, if_pos (by simp [bne_iff_ne, h]), List.lookup_cons]
      have hkp : (k == pk) = false := by simp [Ne.symm h]
      rw [hkp]
      exact ih

lemma lookup_filter_other {β : Type} (l : List (String × β)) (k k2 : String)
    (h : k2 ≠ k) : (l.filter (fun p => p.1 != k)).lookup k2 = l.lookup k2 := by
  induction l with
  | nil => rfl
  | cons p t ih =>
    obtain ⟨pk, pv⟩ := p
    by_cases hp : pk = k
    · have hk2p : (k2 == pk) = false := by simp [hp, h]
      rw [List.filter_cons, if_neg (by simp [hp]), List.lookup_cons, hk2p]
      exact ih
    · rw [List.filter_cons, if_pos (by simp [bne_iff_ne, hp]), List.lookup_cons,
          List.lookup_cons]
      by_cases hk2 : k2 = pk
      · rw [show (k2 == pk) = true by simp [hk2]]
      · rw [show (k2 == pk) = false by simp [hk2]]
        exact ih

lemma lookup_mapSet_self (l : List (String × Nat)) (k : String) (v : Nat) :
    (mapSet l k v).lookup k = some v := by
  unfold mapSet
  rw [List.lookup_cons]
  rw [show (k == k) = true by simp]

lemma lookup_mapSet_other (l : List (String × Nat)) (k k2 : String) (v : Nat)
    (h : k2 ≠ k) : (mapSet l k v).lookup k2 = l.lookup k2 := by
  unfold mapSet
  rw [List.lookup_cons, show (k2 == k) = false by simp [h]]
  exact lookup_filter_other l k k2 h

lemma lookup_mapDelete_self (l : List (String × Nat)) (k : String) :
    (mapDelete l k).lookup k = none := by
  unfold mapDelete
  exact lookup_filter_ne l k

lemma not_mem_setDelete_self (l : List String) (x : String) : x ∉ setDelete l x := by
  intro hx
  have := List.of_mem_filter hx
  simp at this

lemma mem_setDelete (l : List String) (x y : String) (h : y ∈ setDelete l x) :
    y ∈ l :=
  List.mem_of_mem_filter h

lemma mem_setAdd (l : List String) (x y : String) (h : y ∈ setAdd l x) :
    y ∈ l ∨ y = x := by
  unfold setAdd at h
  by_cases hx : x ∈ l
  · rw [if_pos hx] at h; exact Or.inl h
  · rw [if_neg hx] at h
    rcases List.mem_append.1 h with h1 | h1
    · exact Or.inl h1
    · exact Or.inr (by simpa using h1)

lemma mem_setAdd_self (l : List String) (x : String) : x ∈ setAdd l x := by
  unfold setAdd
  by_cases hx : x ∈ l
  · rw [if_pos hx]; exact hx
  · rw [if_neg hx]; exact List.mem_append.2 (Or.inr (by simp))

lemma keys_nodup_mapSet (l : List (String × Nat)) (k : String) (v : Nat)
    (h : (l.map Prod.fst).Nodup) : ((mapSet l k v).map Prod.fst).Nodup := by
  unfold mapSet
  rw [List.map_cons]
  refine List.nodup_cons.2 ⟨?_, ?_⟩
  · intro hmem
    rcases List.mem_map.1 hmem with ⟨p, hp, hfst⟩
    have hpp := List.of_mem_filter hp
    simp [hfst] at hpp
  · exact h.sublist ((List.filter_sublist l).map Prod.fst)

lemma keys_nodup_mapDelete (l : List (String × Nat)) (k : String)
    (h : (l.map Prod.fst).Nodup) : ((mapDelete l k).map Prod.fst).Nodup :=
  h.sublist ((List.filter_sublist l).map Prod.fst)

lemma nodup_foldl_setAdd (xs acc : List String) (h : acc.Nodup) :
    (xs.foldl setAdd acc).Nodup := by
  induction xs generalizing acc with
  | nil => simpa using h
  | cons x t ih =>
    rw [List.foldl_cons]
    refine ih (setAdd acc x) ?_
    unfold setAdd
    by_cases hx : x ∈ acc
    · rw [if_pos hx]; exact h
    · rw [if_neg hx]
      exact List.Nodup.append h (List.nodup_singleton x)
        (by intro y hy hz; simp at hz; subst hz; exact hx hy)

lemma jsSetDedup_nodup (xs : List String) : (jsSetDedup xs).Nodup :=
  nodup_foldl_setAdd xs [] List.nodup_nil

-- ---------------------------------------------------------------------------
-- Helper lemmas: gate functions
-- ---------------------------------------------------------------------------

@[simp] lemma showModal_global503 (s : SWState) (eps : List String) (b : Bool) (now : Nat) :
    (showApiFailureModalFn s eps b now).global503 = s.global503 := by
  unfold showApiFailureModalFn; split_ifs <;> rfl

@[simp] lemma showModal_pendingReqs (s : SWState) (eps : List String) (b : Bool) (now : Nat) :
    (showApiFailureModalFn s eps b now).pendingReqs = s.pendingReqs := by
  unfold showApiFailureModalFn; split_ifs <;> rfl

@[simp] lemma showModal_requestTimeouts (s : SWState) (eps : List String) (b : Bool) (now : Nat) :
    (showApiFailureModalFn s eps b now).requestTimeouts = s.requestTimeouts := by
  unfold showApiFailureModalFn; split_ifs <;> rfl

@[simp] lemma showModal_failedEndpoints (s : SWState) (eps : List String) (b : Bool) (now : Nat) :
    (showApiFailureModalFn s eps b now).failedEndpoints = s.failedEndpoints := by
  unfold showApiFailureModalFn; split_ifs <;> rfl

@[simp] lemma showModal_endpointFailureTimes (s : SWState) (eps : List String) (b : Bool) (now : Nat) :
    (showApiFailureModalFn s eps b now).endpointFailureTimes = s.endpointFailureTimes := by
  unfold showApiFailureModalFn; split_ifs <;> rfl

@[simp] lemma showModal_isApiBlocked (s : SWState) (eps : List String) (b : Bool) (now : Nat) :
    (showApiFailureModalFn s eps b now).isApiBlocked = s.isApiBlocked := by
  unfold showApiFailureModalFn; split_ifs <;> rfl

@[simp] lemma showModal_nextPromiseId (s : SWState) (eps : List String) (b : Bool) (now : Nat) :
    (showApiFailureModalFn s eps b now).nextPromiseId = s.nextPromiseId := by
  unfold showApiFailureModalFn; split_ifs <;> rfl

@[simp] lemma igrb_fst (s : SWState) (now : Nat) :
    (isGlobalRequestBlockedFn s now).1 = globalBlockActive s now := by
  unfold isGlobalRequestBlockedFn globalBlockActive
  split_ifs with h1 h2
  · simp [h1]
  · have hb : s.globalRequestBlocked = true := by
      revert h1; cases s.globalRequestBlocked <;> simp
    simp [hb, show ¬(now - s.globalBlockTime ≤ globalBlockCooldown) from by omega]
  · have hb : s.globalRequestBlocked = true := by
      revert h1; cases s.globalRequestBlocked <;> simp
    simp [hb, show now - s.globalBlockTime ≤ globalBlockCooldown from by omega]

@[simp] lemma igrb_global503 (s : SWState) (now : Nat) :
    (isGlobalRequestBlockedFn s now).2.global503 = s.global503 := by
  unfold isGlobalRequestBlockedFn; split_ifs <;> rfl

@[simp] lemma igrb_pendingReqs (s : SWState) (now : Nat) :
    (isGlobalRequestBlockedFn s now).2.pendingReqs = s.pendingReqs := by
  unfold isGlobalRequestBlockedFn; split_ifs <;> rfl

@[simp] lemma igrb_requestTimeouts (s : SWState) (now : Nat) :
    (isGlobalRequestBlockedFn s now).2.requestTimeouts = s.requestTimeouts := by
  unfold isGlobalRequestBlockedFn; split_ifs <;> rfl

@[simp] lemma igrb_failedEndpoints (s : SWState) (now : Nat) :
    (isGlobalRequestBlockedFn s now).2.failedEndpoints = s.failedEndpoints := by
  unfold isGlobalRequestBlockedFn; split_ifs <;> rfl

@[simp] lemma igrb_endpointFailureTimes (s : SWState) (now : Nat) :
    (isGlobalRequestBlockedFn s now).2.endpointFailureTimes = s.endpointFailureTimes := by
  unfold isGlobalRequestBlockedFn; split_ifs <;> rfl

@[simp] lemma igrb_isApiBlocked (s : SWState) (now : Nat) :
    (isGlobalRequestBlockedFn s now).2.isApiBlocked = s.isApiBlocked := by
  unfold isGlobalRequestBlockedFn; split_ifs <;> rfl

@[simp] lemma igrb_apiIsDown (s : SWState) (now : Nat) :
    (isGlobalRequestBlockedFn s now).2.apiIsDown = s.apiIsDown := by
  unfold isGlobalRequestBlockedFn; split_ifs <;> rfl

@[simp] lemma igrb_lastHealthCheckTime (s : SWState) (now : Nat) :
    (isGlobalRequestBlockedFn s now).2.lastHealthCheckTime = s.lastHealthCheckTime := by
  unfold isGlobalRequestBlockedFn; split_ifs <;> rfl

@[simp] lemma igrb_nextPromiseId (s : SWState) (now : Nat) :
    (isGlobalRequestBlockedFn s now).2.nextPromiseId = s.nextPromiseId := by
  unfold isGlobalRequestBlockedFn; split_ifs <;> rfl

@[simp] lemma iecb_fst (s : SWState) (e : String) (now : Nat) :
    (isEndpointInCircuitBreakerFn s e now).1 = breakerActive s e now := by
  by_cases hm : e ∈ s.failedEndpoints
  · by_cases hex : now - mapGetD s.endpointFailureTimes e 0 > endpointCooldown
    · unfold isEndpointInCircuitBreakerFn breakerActive
      rw [if_neg (not_not_intro hm), if_pos hex]
      have hd : decide (now - mapGetD s.endpointFailureTimes e 0 ≤ endpointCooldown) = false := by
        simp only [decide_eq_false_iff_not]
        omega
      simp [hd]
      intro _
      omega
    · unfold isEndpointInCircuitBreakerFn breakerActive
      rw [if_neg (not_not_intro hm), if_neg hex]
      have hd : decide (now - mapGetD s.endpointFailureTimes e 0 ≤ endpointCooldown) = true := by
        simp only [decide_eq_true_eq]
        omega
      simp [hm, hd]
      omega
  · unfold isEndpointInCircuitBreakerFn breakerActive
    rw [if_pos hm]
    simp [hm]

@[simp] lemma iecb_global503 (s : SWState) (e : String) (now : Nat) :
    (isEndpointInCircuitBreakerFn s e now).2.global503 = s.global503 := by
  unfold isEndpointInCircuitBreakerFn; split_ifs <;> rfl

@[simp] lemma iecb_pendingReqs (s : SWState) (e : String) (now : Nat) :
    (isEndpointInCircuitBreakerFn s e now).2.pendingReqs = s.pendingReqs := by
  unfold isEndpointInCircuitBreakerFn; split_ifs <;> rfl

@[simp] lemma iecb_requestTimeouts (s : SWState) (e : String) (now : Nat) :
    (isEndpointInCircuitBreakerFn s e now).2.requestTimeouts = s.requestTimeouts := by
  unfold isEndpointInCircuitBreakerFn; split_ifs <;> rfl

@[simp] lemma iecb_isApiBlocked (s : SWState) (e : String) (now : Nat) :
    (isEndpointInCircuitBreakerFn s e now).2.isApiBlocked = s.isApiBlocked := by
  unfold isEndpointInCircuitBreakerFn; split_ifs <;> rfl

@[simp] lemma iecb_apiIsDown (s : SWState) (e : String) (now : Nat) :
    (isEndpointInCircuitBreakerFn s e now).2.apiIsDown = s.apiIsDown := by
  unfold isEndpointInCircuitBreakerFn; split_ifs <;> rfl

@[simp] lemma iecb_lastHealthCheckTime (s : SWState) (e : String) (now : Nat) :
    (isEndpointInCircuitBreakerFn s e now).2.lastHealthCheckTime = s.lastHealthCheckTime := by
  unfold isEndpointInCircuitBreakerFn; split_ifs <;> rfl

@[simp] lemma iecb_nextPromiseId (s : SWState) (e : String) (now : Nat) :
    (isEndpointInCircuitBreakerFn s e now).2.nextPromiseId = s.nextPromiseId := by
  unfold isEndpointInCircuitBreakerFn; split_ifs <;> rfl

lemma iecb_mem_failedEndpoints (s : SWState) (e x : String) (now : Nat)
    (h : x ∈ (isEndpointInCircuitBreakerFn s e now).2.failedEndpoints) :
    x ∈ s.failedEndpoints := by
  unfold isEndpointInCircuitBreakerFn at h
  split_ifs at h
  all_goals first | exact h | exact mem_setDelete _ _ _ h

lemma iecb_expired (s : SWState) (e : String) (now : Nat)
    (h1 : e ∈ s.failedEndpoints)
    (h2 : endpointCooldown < now - mapGetD s.endpointFailureTimes e 0) :
    isEndpointInCircuitBreakerFn s e now =
      (false, { s with failedEndpoints := setDelete s.failedEndpoints e,
                       endpointFailureTimes := mapDelete s.endpointFailureTimes e }) := by
  unfold isEndpointInCircuitBreakerFn
  rw [if_neg (by simpa using h1), if_pos h2]

@[simp] lemma cah_fst (s : SWState) (now : Nat) (hl : Bool) :
    (checkApiHealthFn s now hl).1 = healthCheckPasses s now hl := by
  unfold checkApiHealthFn healthCheckPasses
  split_ifs with h1 h2
  · simp [h1]
  · rw [Bool.not_eq_true] at h1
    simp [h1, h2]
  · rw [Bool.not_eq_true] at h1
    have hf : hl = false := by revert h2; cases hl <;> simp
    simp [h1, hf]

@[simp] lemma cah_pendingReqs (s : SWState) (now : Nat) (hl : Bool) :
    (checkApiHealthFn s now hl).2.pendingReqs = s.pendingReqs := by
  unfold checkApiHealthFn; split_ifs <;> rfl

@[simp] lemma cah_requestTimeouts (s : SWState) (now : Nat) (hl : Bool) :
    (checkApiHealthFn s now hl).2.requestTimeouts = s.requestTimeouts := by
  unfold checkApiHealthFn; split_ifs <;> rfl

@[simp] lemma cah_failedEndpoints (s : SWState) (now : Nat) (hl : Bool) :
    (checkApiHealthFn s now hl).2.failedEndpoints = s.failedEndpoints := by
  unfold checkApiHealthFn; split_ifs <;> rfl

@[simp] lemma cah_endpointFailureTimes (s : SWState) (now : Nat) (hl : Bool) :
    (checkApiHealthFn s now hl).2.endpointFailureTimes = s.endpointFailureTimes := by
  unfold checkApiHealthFn; split_ifs <;> rfl

@[simp] lemma cah_isApiBlocked (s : SWState) (now : Nat) (hl : Bool) :
    (checkApiHealthFn s now hl).2.isApiBlocked = s.isApiBlocked := by
  unfold checkApiHealthFn; split_ifs <;> rfl

@[simp] lemma cah_nextPromiseId (s : SWState) (now : Nat) (hl : Bool) :
    (checkApiHealthFn s now hl).2.nextPromiseId = s.nextPromiseId := by
  unfold checkApiHealthFn; split_ifs <;> rfl

lemma cah_pass_global503 (s : SWState) (now : Nat) (hl : Bool)
    (h : (checkApiHealthFn s now hl).1 = true) :
    (checkApiHealthFn s now hl).2.global503 = s.global503 := by
  unfold checkApiHealthFn at h ⊢
  split_ifs at h ⊢
  all_goals simp_all

lemma startRequest_pending (s : SWState) (e m b : String) (now : Nat) (hl : Bool) (pid : Nat)
    (hg : s.global503 = false)
    (hp : s.pendingReqs.lookup (getRequestKey m e b) = some pid) :
    startRequest s e m b now hl = (.joined pid, s) := by
  simp [startRequest, hg, hp]

lemma startRequest_glob503 (s : SWState) (e m b : String) (now : Nat) (hl : Bool)
    (hg : s.global503 = true) :
    startRequest s e m b now hl =
      (.rejected global503Error, showApiFailureModalFn s [e] true now) := by
  simp only [startRequest, hg, if_true]

lemma startRequest_blocked (s : SWState) (e m b : String) (now : Nat) (hl : Bool)
    (hg : s.global503 = false)
    (hp : s.pendingReqs.lookup (getRequestKey m e b) = none)
    (he : e ≠ healthPath)
    (hb : globalBlockActive s now = true) :
    (startRequest s e m b now hl).1 = .rejected globalBlockError := by
  simp [startRequest, hg, hp, bne_iff_ne, he, hb]

lemma startRequest_breaker (s : SWState) (e m b : String) (now : Nat) (hl : Bool)
    (hg : s.global503 = false)
    (hp : s.pendingReqs.lookup (getRequestKey m e b) = none)
    (he : e ≠ healthPath)
    (hb : globalBlockActive s now = false)
    (hcb : breakerActive s e now = true) :
    (startRequest s e m b now hl).1 = .rejected (circuitBreakerError e)
    ∧ (startRequest s e m b now hl).2.pendingReqs = s.pendingReqs := by
  have hba2 : breakerActive (isGlobalRequestBlockedFn s now).2 e now = true := by
    unfold breakerActive at hcb ⊢
    simpa using hcb
  simp [startRequest, hg, hp, bne_iff_ne, he, hb, hba2]

lemma startRequest_consent (s : SWState) (e m b : String) (now : Nat) (hl : Bool)
    (hg : s.global503 = false)
    (hp : s.pendingReqs.lookup (getRequestKey m e b) = none)
    (he : e ≠ healthPath)
    (hb : globalBlockActive s now = false)
    (hcb : breakerActive s e now = false)
    (hcons : s.isApiBlocked = true) :
    (startRequest s e m b now hl).1 = .rejected consentBlockedError
    ∧ (startRequest s e m b now hl).2.pendingReqs = s.pendingReqs := by
  have hba2 : breakerActive (isGlobalRequestBlockedFn s now).2 e now = false := by
    unfold breakerActive at hcb ⊢
    simpa using hcb
  simp [startRequest, hg, hp, bne_iff_ne, he, hb, hba2, checkConsentMiddlewareFn, hcons]

lemma startRequest_healthfail (s : SWState) (e m b : String) (now : Nat) (hl : Bool)
    (hg : s.global503 = false)
    (hp : s.pendingReqs.lookup (getRequestKey m e b) = none)
    (he : e ≠ healthPath)
    (hb : globalBlockActive s now = false)
    (hcb : breakerActive s e now = false)
    (hcons : s.isApiBlocked = false)
    (hh : healthCheckPasses s now hl = false) :
    (startRequest s e m b now hl).1 = .rejected healthCheckFailedError
    ∧ e ∈ (startRequest s e m b now hl).2.failedEndpoints
    ∧ (startRequest s e m b now hl).2.endpointFailureTimes.lookup e = some now := by
  have hba2 : breakerActive (isGlobalRequestBlockedFn s now).2 e now = false := by
    unfold breakerActive at hcb ⊢
    simpa using hcb
  have hh2 : healthCheckPasses
      (isEndpointInCircuitBreakerFn (isGlobalRequestBlockedFn s now).2 e now).2 now hl = false := by
    unfold healthCheckPasses at hh ⊢
    simpa using hh
  simp [startRequest, hg, hp, bne_iff_ne, he, hb, hba2, checkConsentMiddlewareFn, hcons,
        hh2, addEndpointToCircuitBreakerFn, activateGlobalRequestBlockFn,
        mem_setAdd_self, lookup_mapSet_self]

lemma startRequest_proceed (s : SWState) (e m b : String) (now : Nat) (hl : Bool)
    (hg : s.global503 = false)
    (hp : s.pendingReqs.lookup (getRequestKey m e b) = none)
    (he : e ≠ healthPath)
    (hb : globalBlockActive s now = false)
    (hcb : breakerActive s e now = false)
    (hcons : s.isApiBlocked = false)
    (hh : healthCheckPasses s now hl = true) :
    (startRequest s e m b now hl).1 = .started s.nextPromiseId
    ∧ (startRequest s e m b now hl).2.pendingReqs.lookup (getRequestKey m e b)
        = some s.nextPromiseId
    ∧ (startRequest s e m b now hl).2.requestTimeouts.lookup (getRequestKey m e b)
        = some (now + pendingSafetyTimeout)
    ∧ (startRequest s e m b now hl).2.global503 = false := by
  have hba2 : breakerActive (isGlobalRequestBlockedFn s now).2 e now = false := by
    unfold breakerActive at hcb ⊢
    simpa using hcb
  have hh2 : healthCheckPasses
      (isEndpointInCircuitBreakerFn (isGlobalRequestBlockedFn s now).2 e now).2 now hl = true := by
    unfold healthCheckPasses at hh ⊢
    simpa using hh
  have hg5 : (checkApiHealthFn
      (isEndpointInCircuitBreakerFn (isGlobalRequestBlockedFn s now).2 e now).2 now hl).2.global503
      = false := by
    rw [cah_pass_global503 _ _ _ (by simp [hh2])]
    simp [hg]
  simp [startRequest, hg, hp, bne_iff_ne, he, hb, hba2, checkConsentMiddlewareFn, hcons,
        hh2, addPendingRequestFn, lookup_mapSet_self, hg5]

lemma startRequest_health_endpoint (s : SWState) (m b : String) (now : Nat) (hl : Bool)
    (hg : s.global503 = false)
    (hp : s.pendingReqs.lookup (getRequestKey m healthPath b) = none) :
    startRequest s healthPath m b now hl =
      (.started s.nextPromiseId,
        addPendingRequestFn { s with nextPromiseId := s.nextPromiseId + 1 }
          (getRequestKey m healthPath b) s.nextPromiseId now) := by
  simp [startRequest, hg, hp]


lemma mem_cb_chain (s : SWState) (e x : String) (now : Nat)
    (h : x ∈ (isEndpointInCircuitBreakerFn
        (isGlobalRequestBlockedFn s now).2 e now).2.failedEndpoints) :
    x ∈ s.failedEndpoints := by
  have h2 := iecb_mem_failedEndpoints ((isGlobalRequestBlockedFn s now).2) e x now h
  simpa using h2

lemma startRequest_failed_mono (s : SWState) (e m b : String) (now : Nat) (hl : Bool)
    (x : String) :
    x ∈ (startRequest s e m b now hl).2.failedEndpoints →
    x ∈ s.failedEndpoints
      ∨ (x = e ∧ (startRequest s e m b now hl).1 = .rejected healthCheckFailedError) := by
  by_cases hg : s.global503 = true
  · simp [startRequest, hg]
    intro hx
    exact Or.inl hx
  · rw [Bool.not_eq_true] at hg
    rcases hql : List.lookup (getRequestKey m e b) s.pendingReqs with _ | pid
    · by_cases he : e = healthPath
      · subst he
        simp [startRequest, hg, hql, addPendingRequestFn]
      · by_cases hb : globalBlockActive s now = true
        · simp [startRequest, hg, hql, bne_iff_ne, he, hb]
          intro hx
          exact Or.inl hx
        · rw [Bool.not_eq_true] at hb
          by_cases hcb : breakerActive (isGlobalRequestBlockedFn s now).2 e now = true
          · simp [startRequest, hg, hql, bne_iff_ne, he, hb, hcb]
            intro hx
            exact Or.inl (mem_cb_chain s e x now (by simpa using hx))
          · rw [Bool.not_eq_true] at hcb
            by_cases hcons : s.isApiBlocked = true
            · simp [startRequest, hg, hql, bne_iff_ne, he, hb, hcb,
                    checkConsentMiddlewareFn, hcons]
              intro hx
              exact Or.inl (mem_cb_chain s e x now hx)
            · rw [Bool.not_eq_true] at hcons
              by_cases hh : healthCheckPasses
                  (isEndpointInCircuitBreakerFn (isGlobalRequestBlockedFn s now).2 e now).2
                  now hl = true
              · simp [startRequest, hg, hql, bne_iff_ne, he, hb, hcb,
                      checkConsentMiddlewareFn, hcons, hh, addPendingRequestFn]
                intro hx
                exact mem_cb_chain s e x now hx
              · rw [Bool.not_eq_true] at hh
                simp [startRequest, hg, hql, bne_iff_ne, he, hb, hcb,
                      checkConsentMiddlewareFn, hcons, hh,
                      addEndpointToCircuitBreakerFn, activateGlobalRequestBlockFn]
                intro hx
                rcases mem_setAdd _ _ _ hx with h1 | h1
                · exact Or.inl (mem_cb_chain s e x now h1)
                · exact Or.inr h1
    · simp [startRequest, hg, hql]

lemma startPublicRequest_consent (s : SWState) (e m b : String) (now : Nat) (hl : Bool)
    (hg : s.global503 = false)
    (hp : s.pendingReqs.lookup (getRequestKey m e b) = none)
    (he : e ≠ healthPath)
    (hb : globalBlockActive s now = false)
    (hcb : breakerActive s e now = false)
    (hcons : s.isApiBlocked = true) :
    (startPublicRequest s e m b now hl).1 = .rejected consentBlockedError := by
  have hba2 : breakerActive (isGlobalRequestBlockedFn s now).2 e now = false := by
    unfold breakerActive at hcb ⊢
    simpa using hcb
  simp [startPublicRequest, hg, hp, bne_iff_ne, he, hb, hba2, checkConsentMiddlewareFn, hcons]

lemma startRequest_pendingReqs_cases (s : SWState) (e m b : String) (now : Nat) (hl : Bool) :
    (startRequest s e m b now hl).2.pendingReqs = s.pendingReqs
    ∨ ∃ v, (startRequest s e m b now hl).2.pendingReqs
        = mapSet s.pendingReqs (getRequestKey m e b) v := by
  by_cases hg : s.global503 = true
  · simp [startRequest, hg]
  · rw [Bool.not_eq_true] at hg
    rcases hql : List.lookup (getRequestKey m e b) s.pendingReqs with _ | pid
    · by_cases he : e = healthPath
      · subst he
        simp [startRequest, hg, hql, addPendingRequestFn]
      · by_cases hb : globalBlockActive s now = true
        · simp [startRequest, hg, hql, bne_iff_ne, he, hb]
        · rw [Bool.not_eq_true] at hb
          by_cases hcb : breakerActive (isGlobalRequestBlockedFn s now).2 e now = true
          · simp [startRequest, hg, hql, bne_iff_ne, he, hb, hcb]
          · rw [Bool.not_eq_true] at hcb
            by_cases hcons : s.isApiBlocked = true
            · simp [startRequest, hg, hql, bne_iff_ne, he, hb, hcb,
                    checkConsentMiddlewareFn, hcons]
            · rw [Bool.not_eq_true] at hcons
              by_cases hh : healthCheckPasses
                  (isEndpointInCircuitBreakerFn (isGlobalRequestBlockedFn s now).2 e now).2
                  now hl = true
              · simp [startRequest, hg, hql, bne_iff_ne, he, hb, hcb,
                      checkConsentMiddlewareFn, hcons, hh, addPendingRequestFn]
              · rw [Bool.not_eq_true] at hh
                simp [startRequest, hg, hql, bne_iff_ne, he, hb, hcb,
                      checkConsentMiddlewareFn, hcons, hh,
                      addEndpointToCircuitBreakerFn, activateGlobalRequestBlockFn]
    · simp [startRequest, hg, hql]

lemma startRequest_proceed_failed (s : SWState) (e m b : String) (now : Nat) (hl : Bool)
    (hg : s.global503 = false)
    (hp : s.pendingReqs.lookup (getRequestKey m e b) = none)
    (he : e ≠ healthPath)
    (hb : globalBlockActive s now = false)
    (hcb : breakerActive s e now = false)
    (hcons : s.isApiBlocked = false)
    (hh : healthCheckPasses s now hl = true) :
    (startRequest s e m b now hl).2.failedEndpoints
      = (isEndpointInCircuitBreakerFn (isGlobalRequestBlockedFn s now).2 e now).2.failedEndpoints := by
  have hba2 : breakerActive (isGlobalRequestBlockedFn s now).2 e now = false := by
    unfold breakerActive at hcb ⊢
    simpa using hcb
  have hh2 : healthCheckPasses
      (isEndpointInCircuitBreakerFn (isGlobalRequestBlockedFn s now).2 e now).2 now hl = true := by
    unfold healthCheckPasses at hh ⊢
    simpa using hh
  simp [startRequest, hg, hp, bne_iff_ne, he, hb, hba2, checkConsentMiddlewareFn, hcons,
        hh2, addPendingRequestFn]

lemma startRequest_expired_proceeds (s : SWState) (e m b : String) (now : Nat) (hl : Bool)
    (hg : s.global503 = false)
    (hp : s.pendingReqs.lookup (getRequestKey m e b) = none)
    (he : e ≠ healthPath)
    (hb : globalBlockActive s now = false)
    (hmem : e ∈ s.failedEndpoints)
    (hex : endpointCooldown < now - mapGetD s.endpointFailureTimes e 0)
    (hcons : s.isApiBlocked = false)
    (hh : healthCheckPasses s now hl = true) :
    (startRequest s e m b now hl).1 = .started s.nextPromiseId
    ∧ e ∉ (startRequest s e m b now hl).2.failedEndpoints := by
  have hcb : breakerActive s e now = false := by
    have hd : decide (now - mapGetD s.endpointFailureTimes e 0 ≤ endpointCooldown) = false := by
      simp only [decide_eq_false_iff_not]
      omega
    unfold breakerActive
    simp [hd]
    intro _
    omega
  have hmem2 : e ∈ (isGlobalRequestBlockedFn s now).2.failedEndpoints := by simpa using hmem
  have hex2 : endpointCooldown <
      now - mapGetD (isGlobalRequestBlockedFn s now).2.endpointFailureTimes e 0 := by
    unfold mapGetD at hex ⊢
    simpa using hex
  have hcbeq := iecb_expired ((isGlobalRequestBlockedFn s now).2) e now hmem2 hex2
  have base := startRequest_proceed s e m b now hl hg hp he hb hcb hcons hh
  have hfe := startRequest_proceed_failed s e m b now hl hg hp he hb hcb hcons hh
  refine ⟨base.1, ?_⟩
  rw [hfe, hcbeq]
  exact not_mem_setDelete_self _ _

-- ---------------------------------------------------------------------------
-- Helper lemmas: retry engine and transport
-- ---------------------------------------------------------------------------

lemma retryRun_ok {α : Type} (oracle : Nat → Except ApiError α) (jits : Nat → ℚ)
    (remaining attempt : Nat) (v : α) (h : oracle attempt = .ok v) :
    retryRun oracle jits remaining attempt = (.ok v, 1, []) := by
  rw [retryRun, h]

lemma retryRun_fail_last {α : Type} (oracle : Nat → Except ApiError α) (jits : Nat → ℚ)
    (attempt : Nat) (e : ApiError) (h : oracle attempt = .error e)
    (hr : isRetryableErrorFn e = true) :
    retryRun oracle jits 0 attempt = (.error e, 1, []) := by
  rw [retryRun, h]
  simp [hr]

lemma retryRun_fail_step {α : Type} (oracle : Nat → Except ApiError α) (jits : Nat → ℚ)
    (r attempt : Nat) (e : ApiError) (h : oracle attempt = .error e)
    (hr : isRetryableErrorFn e = true) :
    retryRun oracle jits (r + 1) attempt =
      ((retryRun oracle jits r (attempt + 1)).1,
       (retryRun oracle jits r (attempt + 1)).2.1 + 1,
       backoffDelay attempt (jits attempt) :: (retryRun oracle jits r (attempt + 1)).2.2) := by
  rw [retryRun, h]
  simp [hr]

lemma retryRun_fail_nonretryable {α : Type} (oracle : Nat → Except ApiError α)
    (jits : Nat → ℚ) (remaining attempt : Nat) (e : ApiError)
    (h : oracle attempt = .error e) (hr : isRetryableErrorFn e = false) :
    retryRun oracle jits remaining attempt = (.error e, 1, []) := by
  rw [retryRun, h]
  simp [hr]

lemma executeRequest_503_resp (f : FetchOutcome) (r : HttpResponse) (g : Bool)
    (hf : tryFetchModel f = .ok r) (h503 : r.status = 503) :
    executeRequestModel f g = (.ok r.body, true) := by
  unfold executeRequestModel
  rw [hf]
  simp [h503]

-- ---------------------------------------------------------------------------
-- Claim theorems
-- ---------------------------------------------------------------------------

/-- C3: for a retry-eligible operation whose every attempt fails with a
    retryable error, exactly maxRetries + 1 = 4 attempts occur, each
    inter-attempt delay equals min(base * 2 ^ attempt + jitter, maxDelay)
    with base 1000 ms, maxDelay 10000 ms, and after the final attempt the
    last error is propagated; with jitter in [0, 1000) each delay lies
    between min(base * 2 ^ n, maxDelay) and maxDelay; a non-retryable error
    is propagated immediately without further attempts. -/
theorem c3_retry_backoff {α : Type} (oracle : Nat → Except ApiError α)
    (jits : Nat → ℚ) (es : Nat → ApiError) (e0 : ApiError) :
    ((∀ i, oracle i = .error (es i)) → (∀ i, isRetryableErrorFn (es i) = true) →
      retryWithBackoffModel oracle jits RETRY_maxRetries
        = (.error (es 3), 4,
           [min (1000 * 2 ^ 0 + jits 0) 10000,
            min (1000 * 2 ^ 1 + jits 1) 10000,
            min (1000 * 2 ^ 2 + jits 2) 10000]))
    ∧ (∀ (n : Nat) (j : ℚ), 0 ≤ j → j < 1000 →
        min ((1000 : ℚ) * 2 ^ n) 10000 ≤ backoffDelay n j ∧ backoffDelay n j ≤ 10000)
    ∧ (oracle 0 = .error e0 → isRetryableErrorFn e0 = false →
        retryWithBackoffModel oracle jits RETRY_maxRetries = (.error e0, 1, [])) := by
  refine ⟨?_, ?_, ?_⟩
  · intro ho hr
    unfold retryWithBackoffModel RETRY_maxRetries
    rw [retryRun_fail_step oracle jits 2 0 (es 0) (ho 0) (hr 0),
        retryRun_fail_step oracle jits 1 1 (es 1) (ho 1) (hr 1),
        retryRun_fail_step oracle jits 0 2 (es 2) (ho 2) (hr 2),
        retryRun_fail_last oracle jits 3 (es 3) (ho 3) (hr 3)]
    simp [backoffDelay, RETRY_baseDelay, RETRY_maxDelay]
  · intro n j h0 h1
    unfold backoffDelay RETRY_baseDelay RETRY_maxDelay
    constructor
    · exact min_le_min (by linarith) le_rfl
    · exact min_le_right _ _
  · intro ho hr
    unfold retryWithBackoffModel RETRY_maxRetries
    rw [retryRun_fail_nonretryable oracle jits 3 0 e0 ho hr]

/-- Witness for C3 at a concrete always-failing retryable oracle (a timeout
    error) with constant jitter 500, and a concrete non-retryable error. -/
theorem c3_retry_backoff_witness :
    retryWithBackoffModel (fun _ => (.error timeoutError : Except ApiError Unit))
        (fun _ => (500 : ℚ)) RETRY_maxRetries
      = (.error timeoutError, 4, [1500, 2500, 4500])
    ∧ retryWithBackoffModel (fun _ => (.error notFoundError : Except ApiError Unit))
        (fun _ => (500 : ℚ)) RETRY_maxRetries
      = (.error notFoundError, 1, []) := by
  constructor
  · have h := (c3_retry_backoff (fun _ => (.error timeoutError : Except ApiError Unit))
      (fun _ => (500 : ℚ)) (fun _ => timeoutError) timeoutError).1
      (fun _ => rfl) (fun _ => by decide)
    rw [h]
    norm_num
  · exact (c3_retry_backoff (fun _ => (.error notFoundError : Except ApiError Unit))
      (fun _ => (500 : ℚ)) (fun _ => notFoundError) notFoundError).2.2 rfl (by decide)

/-- C6: a cache read with now - insertedAt at most the TTL returns the
    cached value leaving the cache unchanged; a read past the TTL deletes
    the entry and reports a miss, leaving other keys untouched (lazy
    eviction); getLocations skips the network exactly when the cache read
    hits, and goes to the network on a miss. -/
theorem c6_cache_ttl {α : Type} (c : HPCache α) (key : String) (v : α) (ts now : Nat) :
    (c.lookup key = some (v, ts) → now - ts ≤ HOME_CACHE_DURATION →
      hpGet c key now = (some v, c))
    ∧ (c.lookup key = some (v, ts) → HOME_CACHE_DURATION < now - ts →
      (hpGet c key now).1 = none
      ∧ (hpGet c key now).2.lookup key = none
      ∧ ∀ k2, k2 ≠ key → (hpGet c key now).2.lookup k2 = c.lookup k2)
    ∧ (∀ (cc : ApiCache α) (r : Option α),
        (getCachedApiResponseFn cc locationsPath now).1.isSome = true →
        (getLocationsModel cc now r).2.2 = false)
    ∧ (∀ (cc : ApiCache α) (r : Option α),
        (getCachedApiResponseFn cc locationsPath now).1 = none →
        (getLocationsModel cc now r).2.2 = true) := by
  refine ⟨?_, ?_, ?_, ?_⟩
  · intro hlk hfresh
    simp only [hpGet, hlk]
    rw [if_neg (by omega)]
  · intro hlk hstale
    simp only [hpGet, hlk]
    rw [if_pos (by omega)]
    exact ⟨rfl, lookup_filter_ne c key, fun k2 hk2 => lookup_filter_other c key k2 hk2⟩
  · intro cc r hs
    rcases hq : getCachedApiResponseFn cc locationsPath now with ⟨o, c1⟩
    rcases o with _ | w
    · rw [hq] at hs; simp at hs
    · unfold getLocationsModel
      rw [hq]
  · intro cc r hn
    rcases hq : getCachedApiResponseFn cc locationsPath now with ⟨o, c1⟩
    rw [hq] at hn
    simp at hn
    subst hn
    unfold getLocationsModel
    rw [hq]
    rcases r with _ | w <;> rfl

/-- Witness for C6 at a concrete one-entry cache: a fresh read hits without
    touching the cache, a stale read misses and evicts, and getLocations
    does no network work on a hit. -/
theorem c6_cache_ttl_witness :
    hpGet [("k", 5, 1000)] "k" (1000 + HOME_CACHE_DURATION) = (some 5, [("k", 5, 1000)])
    ∧ (hpGet [("k", (5 : Nat), 1000)] "k" (1001 + HOME_CACHE_DURATION)).1 = none
    ∧ (getLocationsModel [(locationsPath, (7 : Nat), 1000, 2000)] 1500 none).2.2 = false := by
  refine ⟨?_, ?_, ?_⟩
  · exact (c6_cache_ttl [("k", 5, 1000)] "k" 5 1000 (1000 + HOME_CACHE_DURATION)).1
      (by decide) (by omega)
  · exact ((c6_cache_ttl [("k", 5, 1000)] "k" 5 1000 (1001 + HOME_CACHE_DURATION)).2.1
      (by decide) (by omega)).1
  · exact (c6_cache_ttl ([] : HPCache Nat) "x" 0 0 1500).2.2.1
      [(locationsPath, (7 : Nat), 1000, 2000)] none (by decide)

/-- C7: a 503 response from the transport (original or synthesized from a
    connection failure, redirect, or CORS-redirect anomaly) is returned to
    the caller as data with the global 503 flag set, not thrown; any other
    response outside the 2xx range whose thrown message is not
    connection-classified or 503-classified makes the call reject, leaving
    the global flag unchanged. -/
theorem c7_503_returned_as_data (f : FetchOutcome) (r : HttpResponse) (g : Bool) :
    (tryFetchModel f = .ok r → r.status = 503 →
        executeRequestModel f g = (.ok r.body, true))
    ∧ executeRequestModel (.fetchError "TypeError: Failed to fetch" true) g
        = (.ok (.obj connMock503), true)
    ∧ executeRequestModel (.resp ⟨301, false, "Moved Permanently", .other "m"⟩) g
        = (.ok (.obj redirectMock503), true)
    ∧ executeRequestModel
          (.fetchError "TypeError: Redirect is not allowed by CORS policy" true) g
        = (.ok (.obj corsMock503), true)
    ∧ (tryFetchModel f = .ok r → ¬(200 ≤ r.status ∧ r.status < 300) → r.status ≠ 503 →
        isConnectionErrorModel (plainError (handleErrorResponseModel r)) = false →
        is503ErrorModel (plainError (handleErrorResponseModel r)) = false →
        executeRequestModel f g = (.error (plainError (handleErrorResponseModel r)), g)) := by
  refine ⟨?_, ?_, ?_, ?_, ?_⟩
  · exact fun hf h503 => executeRequest_503_resp f r g hf h503
  · rfl
  · rfl
  · rfl
  · intro hf h2xx h503 hcon h503m
    unfold executeRequestModel
    rw [hf]
    have hc1 : (decide (200 ≤ r.status) && decide (r.status < 300)) = false := by
      rcases Nat.lt_or_ge r.status 200 with h | h
      · simp
        omega
      · simp
        intro _
        omega
    have hc2 : (r.status == 503) = false := by simpa using h503
    simp [hc1, hc2, hcon, h503m]

/-- Witness for C7: a true 503 response with a structured body is passed
    through as data with the flag set, and a 404 rejects. -/
theorem c7_503_returned_as_data_witness :
    executeRequestModel
        (.resp ⟨503, false, "Service Unavailable",
          .obj ⟨true, 503, "down", true, false, false, false⟩⟩) false
      = (.ok (.obj ⟨true, 503, "down", true, false, false, false⟩), true)
    ∧ executeRequestModel (.resp ⟨404, false, "Not Found", .other "nf"⟩) false
      = (.error (plainError "HTTP 404: Not Found"), false) := by
  constructor
  · exact (c7_503_returned_as_data
      (.resp ⟨503, false, "Service Unavailable",
        .obj ⟨true, 503, "down", true, false, false, false⟩⟩)
      ⟨503, false, "Service Unavailable",
        .obj ⟨true, 503, "down", true, false, false, false⟩⟩ false).1 rfl rfl
  · have h := (c7_503_returned_as_data (.resp ⟨404, false, "Not Found", .other "nf"⟩)
      ⟨404, false, "Not Found", .other "nf"⟩ false).2.2.2.2
      rfl (by decide) (by decide) (by decide) (by decide)
    rw [show handleErrorResponseModel
        (⟨404, false, "Not Found", .other "nf"⟩ : HttpResponse)
        = "HTTP 404: Not Found" by decide] at h
    exact h

/-- C8: the Failure Notifier never replaces a visible notification, a show
    request within the 5 s cooldown after the last shown notification
    leaves the state unchanged, and a show request after the cooldown with
    no notification visible produces a visible notification whose
    failed-endpoint list is duplicate-free, stamping the show time. -/
theorem c8_notifier_guarantees (s : SWState) (eps : List String) (b : Bool) (now : Nat) :
    (s.modal.isVisible = true → showApiFailureModalFn s eps b now = s)
    ∧ (s.modal.isVisible = false → now - s.lastModalShowTime < modalCooldown →
        showApiFailureModalFn s eps b now = s)
    ∧ (s.modal.isVisible = false → modalCooldown ≤ now - s.lastModalShowTime →
        (showApiFailureModalFn s eps b now).modal.isVisible = true
        ∧ (showApiFailureModalFn s eps b now).modal.failedEndpoints = jsSetDedup eps
        ∧ (jsSetDedup eps).Nodup
        ∧ (showApiFailureModalFn s eps b now).lastModalShowTime = now) := by
  refine ⟨?_, ?_, ?_⟩
  · intro hv
    unfold showApiFailureModalFn
    rw [if_pos hv]
  · intro hv hc
    unfold showApiFailureModalFn
    rw [if_neg (by simp [hv]), if_pos hc]
  · intro hv hc
    unfold showApiFailureModalFn
    rw [if_neg (by simp [hv]), if_neg (by omega)]
    exact ⟨rfl, rfl, jsSetDedup_nodup eps, rfl⟩

/-- Witness for C8: on the fresh client a show at 6000 ms becomes visible
    with a deduplicated endpoint list, while a second show while visible
    and a show within the cooldown change nothing. -/
theorem c8_notifier_guarantees_witness :
    (showApiFailureModalFn cleanState ["/v0/nav", "/v0/nav"] true 6000).modal.isVisible = true
    ∧ (showApiFailureModalFn cleanState ["/v0/nav", "/v0/nav"] true 6000).modal.failedEndpoints
        = ["/v0/nav"]
    ∧ showApiFailureModalFn cleanState ["/v0/nav"] true 1000 = cleanState := by
  have h3 := (c8_notifier_guarantees cleanState ["/v0/nav", "/v0/nav"] true 6000).2.2
    rfl (by decide)
  have h2 := (c8_notifier_guarantees cleanState ["/v0/nav"] true 1000).2.1
    rfl (by decide)
  exact ⟨h3.1, by rw [h3.2.1]; decide, h2⟩

/-- C9: when an identical request is already registered as pending, the
    call returns that registered promise after only the global-503 check,
    bypassing the global block, circuit breaker, consent gate and health
    check; only a prior global-503 state preempts the pending-request
    return. -/
theorem c9_pending_bypasses_gates (s : SWState) (e m b : String) (now : Nat)
    (hl : Bool) (pid : Nat) :
    (s.global503 = false → s.pendingReqs.lookup (getRequestKey m e b) = some pid →
        startRequest s e m b now hl = (.joined pid, s))
    ∧ (s.global503 = true →
        (startRequest s e m b now hl).1 = .rejected global503Error) := by
  constructor
  · intro hg hp
    exact startRequest_pending s e m b now hl pid hg hp
  · intro hg
    rw [startRequest_glob503 s e m b now hl hg]

/-- Witness for C9: with consent revoked, the breaker tripped and the
    global block active, a call whose identity is pending still returns the
    in-flight promise untouched. -/
theorem c9_pending_bypasses_gates_witness :
    startRequest sPendingAllGates "/v0/services" "GET" "" 1000 false
      = (.joined 3, sPendingAllGates)
    ∧ sPendingAllGates.isApiBlocked = true := by
  refine ⟨?_, rfl⟩
  exact (c9_pending_bypasses_gates sPendingAllGates "/v0/services" "GET" "" 1000 false 3).1
    rfl (by decide)

/-- C10: the JWT manager never yields an expired token: whenever the stored
    token expiry is earlier than the current time, getToken returns none
    and clears both memory and storage, getAuthHeaders yields no
    Authorization header and isAuthenticated is false; any token actually
    returned is unexpired. -/
theorem c10_jwt_no_expired_token (s : AuthState) (t : JWTTokenData) (now : Nat) :
    (s.mem = some t → t.expiresAt < now →
      getTokenFn s now = (none, ⟨none, none⟩)
      ∧ getAuthHeadersFn s now = ([], ⟨none, none⟩)
      ∧ isAuthenticatedFn s now = (false, ⟨none, none⟩))
    ∧ (∀ tok, (getTokenFn s now).1 = some tok →
        ∃ u, s.mem = some u ∧ tok = u.token ∧ ¬(u.expiresAt < now)) := by
  constructor
  · intro hm hexp
    have hg : getTokenFn s now = (none, ⟨none, none⟩) := by
      simp only [getTokenFn, hm]
      rw [if_pos hexp]
      rfl
    refine ⟨hg, ?_, ?_⟩
    · unfold getAuthHeadersFn
      rw [hg]
    · unfold isAuthenticatedFn
      rw [hg]
      rfl
  · intro tok htok
    rcases hm : s.mem with _ | u
    · simp only [getTokenFn, hm] at htok
      simp at htok
    · simp only [getTokenFn, hm] at htok
      by_cases hexp : u.expiresAt < now
      · rw [if_pos hexp] at htok
        simp at htok
      · rw [if_neg hexp] at htok
        simp at htok
        exact ⟨u, rfl, htok.symm, hexp⟩

/-- Witness for C10 at a token that expired at 100 read at time 200. -/
theorem c10_jwt_no_expired_token_witness :
    getTokenFn ⟨some ⟨"tok", 100⟩, some ⟨"tok", 100⟩⟩ 200 = (none, ⟨none, none⟩)
    ∧ getAuthHeadersFn ⟨some ⟨"tok", 100⟩, some ⟨"tok", 100⟩⟩ 200 = ([], ⟨none, none⟩)
    ∧ isAuthenticatedFn ⟨some ⟨"tok", 100⟩, some ⟨"tok", 100⟩⟩ 200 = (false, ⟨none, none⟩) :=
  (c10_jwt_no_expired_token ⟨some ⟨"tok", 100⟩, some ⟨"tok", 100⟩⟩ ⟨"tok", 100⟩ 200).1
    rfl (by decide)

/-- C1 counterexample: a call to the about endpoint whose transport answers
    HTTP 404 (a failure attributable to that endpoint) rejects with the 404
    error yet leaves the circuit breaker empty: a non-2xx response does not
    trip the breaker, contradicting the claim as stated. -/
theorem c1_counterexample_404_does_not_trip :
    (makeRequestInternalModel cleanState "/v0/about" "GET" "" 1000000 true fetch404).1
      = .rejectedNetwork 0 (plainError "HTTP 404: Not Found")
    ∧ (makeRequestInternalModel cleanState "/v0/about" "GET" "" 1000000 true
        fetch404).2.failedEndpoints = [] := by
  decide

/-- C1 (amended): an endpoint is tripped exactly by the health-check-failed
    path of a call to it, with the current timestamp; while tripped and
    within the 60 s cooldown a call that reaches the breaker check is
    rejected immediately with the circuit-breaker classification and no
    network promise is registered; once the cooldown has elapsed the
    breaker check removes the mark and the call proceeds to the network. -/
theorem c1_breaker_trip_and_cooldown (s : SWState) (e m b : String) (now : Nat) (hl : Bool) :
    (∀ x, x ∈ (startRequest s e m b now hl).2.failedEndpoints →
        x ∈ s.failedEndpoints
        ∨ (x = e ∧ (startRequest s e m b now hl).1 = .rejected healthCheckFailedError))
    ∧ (s.global503 = false → s.pendingReqs.lookup (getRequestKey m e b) = none →
        e ≠ healthPath → globalBlockActive s now = false → breakerActive s e now = true →
        (startRequest s e m b now hl).1 = .rejected (circuitBreakerError e)
        ∧ (startRequest s e m b now hl).2.pendingReqs = s.pendingReqs
        ∧ (circuitBreakerError e).isCircuitBreaker = true)
    ∧ (s.global503 = false → s.pendingReqs.lookup (getRequestKey m e b) = none →
        e ≠ healthPath → globalBlockActive s now = false → breakerActive s e now = false →
        s.isApiBlocked = false → healthCheckPasses s now hl = false →
        (startRequest s e m b now hl).1 = .rejected healthCheckFailedError
        ∧ e ∈ (startRequest s e m b now hl).2.failedEndpoints
        ∧ (startRequest s e m b now hl).2.endpointFailureTimes.lookup e = some now)
    ∧ (s.global503 = false → s.pendingReqs.lookup (getRequestKey m e b) = none →
        e ≠ healthPath → globalBlockActive s now = false →
        e ∈ s.failedEndpoints →
        endpointCooldown < now - mapGetD s.endpointFailureTimes e 0 →
        s.isApiBlocked = false → healthCheckPasses s now hl = true →
        (startRequest s e m b now hl).1 = .started s.nextPromiseId
        ∧ e ∉ (startRequest s e m b now hl).2.failedEndpoints) := by
  refine ⟨startRequest_failed_mono s e m b now hl, ?_, ?_, ?_⟩
  · intro hg hp he hb hcb
    have h := startRequest_breaker s e m b now hl hg hp he hb hcb
    exact ⟨h.1, h.2, rfl⟩
  · intro hg hp he hb hcb hcons hh
    exact startRequest_healthfail s e m b now hl hg hp he hb hcb hcons hh
  · intro hg hp he hb hmem hex hcons hh
    exact startRequest_expired_proceeds s e m b now hl hg hp he hb hmem hex hcons hh

/-- Witness for C1 on the state tripped for the supplies endpoint at time 0:
    at 40 s the call is rejected as circuit breaker; at 70 s the cooldown
    has elapsed, the mark is removed and the call starts a network
    promise. -/
theorem c1_breaker_trip_and_cooldown_witness :
    (startRequest sTripSupplies "/v0/supplies" "GET" "" 40000 true).1
      = .rejected (circuitBreakerError "/v0/supplies")
    ∧ (startRequest sTripSupplies "/v0/supplies" "GET" "" 70000 true).1 = .started 0
    ∧ "/v0/supplies" ∉
        (startRequest sTripSupplies "/v0/supplies" "GET" "" 70000 true).2.failedEndpoints := by
  have h2 := (c1_breaker_trip_and_cooldown sTripSupplies "/v0/supplies" "GET" "" 40000 true).2.1
    rfl (by decide) (by decide) (by decide) (by decide)
  have h4 := (c1_breaker_trip_and_cooldown sTripSupplies "/v0/supplies" "GET" "" 70000 true).2.2.2
    rfl (by decide) (by decide) (by decide) (by decide) (by decide) rfl (by decide)
  exact ⟨h2.1, h4.1, h4.2⟩

/-- C2 counterexample: with consent revoked and the services endpoint
    tripped (block cooldown already over), the call is rejected with the
    circuit-breaker classification, not the consent-blocked one, so the
    consent gate does not run before the circuit breaker. -/
theorem c2_counterexample_breaker_beats_consent :
    sTripConsent.isApiBlocked = true
    ∧ (startRequest sTripConsent "/v0/services" "GET" "" 40000 true).1
        = .rejected (circuitBreakerError "/v0/services")
    ∧ (circuitBreakerError "/v0/services").isConsentBlocked = false
    ∧ (circuitBreakerError "/v0/services").isCircuitBreaker = true := by
  decide

/-- C2 (amended): the checks of makeRequestInternal run in the order
    global-503 gate, pending-request deduplication, global request block,
    circuit breaker, consent gate, health gate; in particular when both the
    consent gate and the circuit breaker would reject a call the rejection
    carries the circuit-breaker classification. -/
theorem c2_gate_order (s : SWState) (e m b : String) (now : Nat) (hl : Bool) :
    (s.global503 = true → (startRequest s e m b now hl).1 = .rejected global503Error)
    ∧ (s.global503 = false → ∀ pid, s.pendingReqs.lookup (getRequestKey m e b) = some pid →
        startRequest s e m b now hl = (.joined pid, s))
    ∧ (s.global503 = false → s.pendingReqs.lookup (getRequestKey m e b) = none →
        e ≠ healthPath → globalBlockActive s now = true →
        (startRequest s e m b now hl).1 = .rejected globalBlockError)
    ∧ (s.global503 = false → s.pendingReqs.lookup (getRequestKey m e b) = none →
        e ≠ healthPath → globalBlockActive s now = false → breakerActive s e now = true →
        (startRequest s e m b now hl).1 = .rejected (circuitBreakerError e)
        ∧ (circuitBreakerError e).isConsentBlocked = false)
    ∧ (s.global503 = false → s.pendingReqs.lookup (getRequestKey m e b) = none →
        e ≠ healthPath → globalBlockActive s now = false → breakerActive s e now = false →
        s.isApiBlocked = true →
        (startRequest s e m b now hl).1 = .rejected consentBlockedError) := by
  refine ⟨?_, ?_, ?_, ?_, ?_⟩
  · intro hg
    rw [startRequest_glob503 s e m b now hl hg]
  · intro hg pid hp
    exact startRequest_pending s e m b now hl pid hg hp
  · intro hg hp he hb
    exact startRequest_blocked s e m b now hl hg hp he hb
  · intro hg hp he hb hcb
    exact ⟨(startRequest_breaker s e m b now hl hg hp he hb hcb).1, rfl⟩
  · intro hg hp he hb hcb hcons
    exact (startRequest_consent s e m b now hl hg hp he hb hcb hcons).1

/-- Witness for C2: the global block rejects before the breaker and consent
    on the tripped state at 10 s, and the consent gate rejects once the
    earlier checks pass. -/
theorem c2_gate_order_witness :
    (startRequest sTripConsent "/v0/services" "GET" "" 10000 true).1
      = .rejected globalBlockError
    ∧ (startRequest sPendingConsent "/v0/about" "GET" "" 10000 true).1
      = .rejected consentBlockedError := by
  constructor
  · exact (c2_gate_order sTripConsent "/v0/services" "GET" "" 10000 true).2.2.1
      rfl (by decide) (by decide) (by decide)
  · exact (c2_gate_order sPendingConsent "/v0/about" "GET" "" 10000 true).2.2.2.2
      rfl (by decide) (by decide) (by decide) (by decide) rfl

/-- C4: a second identical call while the first promise is registered joins
    that same promise without starting a new network request and leaves the
    state unchanged; the registry keys stay duplicate-free under every
    operation, the entry carries a cleanup scheduled 30 s after insertion,
    and both settling and the safety timeout remove the entry. -/
theorem c4_request_deduplication (s : SWState) (e m b : String) (now now2 : Nat)
    (hl hl2 : Bool) (key : String) :
    (s.global503 = false → s.pendingReqs.lookup (getRequestKey m e b) = none →
      e ≠ healthPath → globalBlockActive s now = false → breakerActive s e now = false →
      s.isApiBlocked = false → healthCheckPasses s now hl = true →
        (startRequest s e m b now hl).1 = .started s.nextPromiseId
        ∧ startRequest (startRequest s e m b now hl).2 e m b now2 hl2
            = (.joined s.nextPromiseId, (startRequest s e m b now hl).2)
        ∧ (startRequest s e m b now hl).2.requestTimeouts.lookup (getRequestKey m e b)
            = some (now + pendingSafetyTimeout))
    ∧ (pendingKeysNodup s → pendingKeysNodup (startRequest s e m b now hl).2)
    ∧ (removePendingRequestFn s key).pendingReqs.lookup key = none
    ∧ (pendingTimeoutFire s key).pendingReqs.lookup key = none := by
  refine ⟨?_, ?_, ?_, ?_⟩
  · intro hg hp he hb hcb hcons hh
    have hpr := startRequest_proceed s e m b now hl hg hp he hb hcb hcons hh
    exact ⟨hpr.1,
      startRequest_pending _ e m b now2 hl2 s.nextPromiseId hpr.2.2.2 hpr.2.1,
      hpr.2.2.1⟩
  · intro hnd
    rcases startRequest_pendingReqs_cases s e m b now hl with hc | ⟨v, hc⟩
    · unfold pendingKeysNodup
      rw [hc]
      exact hnd
    · unfold pendingKeysNodup
      rw [hc]
      exact keys_nodup_mapSet _ _ _ hnd
  · exact lookup_mapDelete_self s.pendingReqs key
  · exact lookup_mapDelete_self s.pendingReqs key

/-- Witness for C4: on the fresh client a first nav call at 1000 ms starts
    promise 0, and an identical call at 1500 ms joins promise 0 with the
    state untouched. -/
theorem c4_request_deduplication_witness :
    startRequest cleanState "/v0/nav" "GET" "" 1000 true = (.started 0, c4WitnessState)
    ∧ startRequest c4WitnessState "/v0/nav" "GET" "" 1500 true
      = (.joined 0, c4WitnessState) := by
  have hs : startRequest cleanState "/v0/nav" "GET" "" 1000 true
      = (.started 0, c4WitnessState) := by decide
  have h2 := ((c4_request_deduplication cleanState "/v0/nav" "GET" "" 1000 1500
      true true "x").1 rfl rfl (by decide) (by decide) (by decide) rfl (by decide)).2.1
  rw [hs] at h2
  exact ⟨hs, h2⟩

/-- C5 counterexample: with consent revoked, a call whose identity is
    already pending returns the in-flight promise instead of rejecting
    with the consent-blocked classification. -/
theorem c5_counterexample_pending_despite_blocked_consent :
    sPendingConsent.isApiBlocked = true
    ∧ startRequest sPendingConsent "/v0/nav" "GET" "" 5000 true
      = (.joined 7, sPendingConsent) := by
  decide

/-- C5 (amended): when consent is not granted, a call for a non-health
    endpoint that is not intercepted by the global-503 gate, the
    pending-request deduplication, the global block or the circuit breaker
    rejects with the consent-blocked classification and registers no
    network promise, for makeRequest and makePublicRequest alike; a call to
    the health endpoint is never subject to the consent check and proceeds
    to the network. -/
theorem c5_consent_gate_scope (s : SWState) (e m b : String) (now : Nat) (hl : Bool) :
    (e ≠ healthPath → s.isApiBlocked = true → s.global503 = false →
      s.pendingReqs.lookup (getRequestKey m e b) = none →
      globalBlockActive s now = false → breakerActive s e now = false →
        (startRequest s e m b now hl).1 = .rejected consentBlockedError
        ∧ (startRequest s e m b now hl).2.pendingReqs = s.pendingReqs
        ∧ (startPublicRequest s e m b now hl).1 = .rejected consentBlockedError
        ∧ consentBlockedError.isConsentBlocked = true)
    ∧ (s.global503 = false → s.pendingReqs.lookup (getRequestKey m healthPath b) = none →
        (startRequest s healthPath m b now hl).1 = .started s.nextPromiseId) := by
  constructor
  · intro he hcons hg hp hb hcb
    have h1 := startRequest_consent s e m b now hl hg hp he hb hcb hcons
    exact ⟨h1.1, h1.2,
      startPublicRequest_consent s e m b now hl hg hp he hb hcb hcons, rfl⟩
  · intro hg hp
    rw [startRequest_health_endpoint s m b now hl hg hp]

/-- Witness for C5: on the pending-nav state with consent revoked, a
    services call rejects consent-blocked, while a health call starts its
    network promise untouched by the consent gate. -/
theorem c5_consent_gate_scope_witness :
    (startRequest sPendingConsent "/v0/services" "GET" "" 5000 true).1
      = .rejected consentBlockedError
    ∧ (startRequest sPendingConsent healthPath "GET" "" 5000 true).1 = .started 8 := by
  constructor
  · exact ((c5_consent_gate_scope sPendingConsent "/v0/services" "GET" "" 5000 true).1
      (by decide) rfl rfl (by decide) (by decide) (by decide)).1
  · exact (c5_consent_gate_scope sPendingConsent "/v0/about" "GET" "" 5000 true).2
      rfl (by decide)
